import Mathlib

/-!
Shallow embedding of `src/bin/boat.py` from keelson-connector-mavlink.

The `Boat` class holds a MAVLink connection plus mutable state (connection
flag, armed status, control authority, stored rudder/throttle setpoints and
the RC channel-11 attribute created by the poll method).  Every method that
talks to the link is modelled as a pure function from the pre-state and the
environment input it consumes (the optional telemetry message returned by a
blocking receive with timeout) to the post-state together with the list of
messages it sends on the link.
-/

/-- MAVLink command id `MAV_CMD_DO_SET_RELAY`. -/
def MAV_CMD_DO_SET_RELAY : Nat := 181

/-- MAVLink command id `MAV_CMD_DO_SET_SERVO`. -/
def MAV_CMD_DO_SET_SERVO : Nat := 183

/-- MAVLink command id `MAV_CMD_COMPONENT_ARM_DISARM`. -/
def MAV_CMD_COMPONENT_ARM_DISARM : Nat := 400

/-- MAVLink bitmask flag `MAV_MODE_FLAG_SAFETY_ARMED`. -/
def MAV_MODE_FLAG_SAFETY_ARMED : Nat := 128

/-- `class Status(Enum)` from boat.py (UNDEFINED=-1, ARMED=0, DISARMED=1,
EMERGENCY=2). -/
inductive Status where
  | UNDEFINED
  | ARMED
  | DISARMED
  | EMERGENCY
  deriving DecidableEq, Repr

/-- The `.value` attribute of the `Status` Python enum. -/
def Status.value : Status → Int
  | .UNDEFINED => -1
  | .ARMED => 0
  | .DISARMED => 1
  | .EMERGENCY => 2

/-- `class ControlAuthority(Enum)` from boat.py (UNDEFINED=-1, MANUAL=0,
REMOTE=1, AUTOMATIC=2). -/
inductive ControlAuthority where
  | UNDEFINED
  | MANUAL
  | REMOTE
  | AUTOMATIC
  deriving DecidableEq, Repr

/-- The `.value` attribute of the `ControlAuthority` Python enum. -/
def ControlAuthority.value : ControlAuthority → Int
  | .UNDEFINED => -1
  | .MANUAL => 0
  | .REMOTE => 1
  | .AUTOMATIC => 2

/-- An `RC_CHANNELS` telemetry message as consumed by the poll method:
`chan11_raw` is `none` when the attribute is absent (`hasattr` fails). -/
structure RcChannelsMsg where
  chan11_raw : Option Int
  deriving DecidableEq, Repr

/-- A `HEARTBEAT` telemetry message: `base_mode` bitmask and `custom_mode`. -/
structure HeartbeatMsg where
  base_mode : Nat
  custom_mode : Nat
  deriving DecidableEq, Repr

/-- A message sent to the link: either an `rc_channels_override_send` with
eight channel slots, or a `command_long_send` with a command id, a
confirmation byte and seven numeric parameters. -/
inductive LinkMsg where
  | rc_channels_override (ch1 ch2 ch3 ch4 ch5 ch6 ch7 ch8 : Int)
  | command_long (command : Nat) (confirmation : Nat)
      (param1 param2 param3 param4 param5 param6 param7 : Int)
  deriving DecidableEq, Repr

/-- The PWM values carried by a link message.  For an RC override send the
code populates the first three channel slots with actuation values and
leaves channels 4-8 at 0, the MAVLink sentinel for "channel not overridden",
so only the first three slots are PWM values.  For `command_long`, only
`MAV_CMD_DO_SET_SERVO` carries a PWM value (in its second parameter);
relay and arm/disarm parameters are indices and flags, not PWM. -/
def LinkMsg.pwmValues : LinkMsg → List Int
  | .rc_channels_override ch1 ch2 ch3 _ _ _ _ _ => [ch1, ch2, ch3]
  | .command_long command _ _ param2 _ _ _ _ _ =>
      if command = MAV_CMD_DO_SET_SERVO then [param2] else []

/-- The mutable instance attributes of the Python `Boat` object.
`rc_channel_11_value` is `none` while the attribute does not exist yet
(it is first created inside `__poll_rc_mode_switch`), and `some x` once the
attribute has been assigned the value `x` (itself an `Option Int`, since the
Python code assigns `None` when `chan11_raw` is absent from the message). -/
structure BoatState where
  connected : Bool
  heartbeat_received : Bool
  confirm_commands : Bool
  current_rudder_value : Int
  current_throttle_value : Int
  last_command_sent : Option Nat
  mode_switch : Option Int
  status : Status
  control_authority : ControlAuthority
  rc_channel_11_value : Option (Option Int)
  deriving DecidableEq, Repr

namespace Boat

/-- `Boat.is_armed`: blocking receive of a `HEARTBEAT` with 1 s timeout;
`none` models the timeout, in which case the method returns `False`.
Otherwise armed is the `MAV_MODE_FLAG_SAFETY_ARMED` bit of `base_mode`. -/
def is_armed (heartbeat : Option HeartbeatMsg) : Bool :=
  match heartbeat with
  | some h => decide (h.base_mode &&& MAV_MODE_FLAG_SAFETY_ARMED ≠ 0)
  | none => false

/-- `Boat.get_flight_mode`: returns the `custom_mode` of a received
heartbeat, or `None` when the receive times out. -/
def get_flight_mode (heartbeat : Option HeartbeatMsg) : Option Nat :=
  match heartbeat with
  | some h => some h.custom_mode
  | none => none

/-- `Boat.__init__` followed by its status / flight-mode initialisation.
`hbArm` is the heartbeat consumed by the `is_armed` check and `hbMode` the
one consumed by `get_flight_mode`.  The flight-mode-derived authority is
computed and then unconditionally overwritten with `REMOTE` (line 60 of the
source), so it is dead; we keep the computation for fidelity. -/
def init (hbArm hbMode : Option HeartbeatMsg) : BoatState :=
  let status0 := if is_armed hbArm then Status.ARMED else Status.UNDEFINED
  let authorityFromMode :=
    match get_flight_mode hbMode with
    | some 0 => ControlAuthority.MANUAL
    | some 1 => ControlAuthority.REMOTE
    | some 2 => ControlAuthority.AUTOMATIC
    | _ => ControlAuthority.UNDEFINED
  { connected := false
    heartbeat_received := false
    confirm_commands := false
    current_rudder_value := 1500
    current_throttle_value := 1500
    last_command_sent := none
    mode_switch := none
    status := status0
    -- the source overwrites the flight-mode guess with REMOTE
    control_authority :=
      match authorityFromMode with
      | _ => ControlAuthority.REMOTE
    rc_channel_11_value := none }

/-- `Boat.wait_for_heartbeat`: on a received heartbeat sets both the
heartbeat flag and the connected flag. -/
def wait_for_heartbeat (s : BoatState) : BoatState :=
  { s with heartbeat_received := true, connected := true }

/-- `Boat.close_connection`: closes the link and clears the connected flag. -/
def close_connection (s : BoatState) : BoatState :=
  { s with connected := false }

/-- `Boat.__poll_rc_mode_switch`: blocking receive of one `RC_CHANNELS`
message (timeout 1 s, `none` models the timeout).  When a message arrives
the instance attribute `rc_channel_11_value` is assigned (its `chan11_raw`
when present, Python `None` otherwise); then a present value above 1500
switches authority to REMOTE, below 1500 to MANUAL, and exactly 1500 leaves
it unchanged. -/
def poll_rc_mode_switch (s : BoatState) (message : Option RcChannelsMsg) :
    BoatState :=
  match message with
  | none => s
  | some m =>
      let s1 := { s with rc_channel_11_value := some m.chan11_raw }
      match m.chan11_raw with
      | none => s1
      | some v =>
          if v > 1500 ∧ s1.control_authority ≠ ControlAuthority.REMOTE then
            { s1 with control_authority := ControlAuthority.REMOTE }
          else if v < 1500 ∧ s1.control_authority ≠ ControlAuthority.MANUAL then
            { s1 with control_authority := ControlAuthority.MANUAL }
          else s1

/-- `Boat.__should_allow_rc_override`: when the authority is UNDEFINED it
first polls the RC mode switch (consuming `pollMessage`), then returns
whether the authority ordinal differs from 0.  The result is the returned
boolean, the post-state, and the number of polls performed. -/
def should_allow_rc_override (s : BoatState)
    (pollMessage : Option RcChannelsMsg) : Bool × BoatState × Nat :=
  if s.control_authority = ControlAuthority.UNDEFINED then
    let s1 := poll_rc_mode_switch s pollMessage
    (decide (s1.control_authority.value ≠ 0), s1, 1)
  else
    (decide (s.control_authority.value ≠ 0), s, 0)

/-- `Boat.__update_steering`: the RC override send, populating channel 1
with the stored rudder value and channels 2 and 3 with the stored throttle
value; the remaining channels are left unoverridden (0 sentinel). -/
def update_steering (s : BoatState) : LinkMsg :=
  LinkMsg.rc_channels_override s.current_rudder_value
    s.current_throttle_value s.current_throttle_value 0 0 0 0 0

/-- `Boat.set_rudder`: returns early when not connected.  The input models
Python `int(steering_value)`: `none` when the coercion raises (the `except`
branch returns early), `some v` when it yields `v`.  A value in
[1100, 1900] is stored as the rudder setpoint; any other coercible value
falls through without mutation.  Either way the method then consults
`__should_allow_rc_override` (which may poll, consuming `pollMessage`) and,
when allowed, sends one override message built from the stored setpoints. -/
def set_rudder (s : BoatState) (steering_value : Option Int)
    (pollMessage : Option RcChannelsMsg) : BoatState × List LinkMsg :=
  if s.connected = false then (s, [])
  else
    match steering_value with
    | none => (s, [])
    | some received_value =>
        let s1 :=
          if received_value ≥ 1100 ∧ received_value ≤ 1900 then
            { s with current_rudder_value := received_value }
          else s
        let r := should_allow_rc_override s1 pollMessage
        if r.1 then (r.2.1, [update_steering r.2.1]) else (r.2.1, [])

/-- `Boat.set_throttle`: identical to `set_rudder` but storing the throttle
setpoint. -/
def set_throttle (s : BoatState) (throttle_value : Option Int)
    (pollMessage : Option RcChannelsMsg) : BoatState × List LinkMsg :=
  if s.connected = false then (s, [])
  else
    match throttle_value with
    | none => (s, [])
    | some received_value =>
        let s1 :=
          if received_value ≥ 1100 ∧ received_value ≤ 1900 then
            { s with current_throttle_value := received_value }
          else s
        let r := should_allow_rc_override s1 pollMessage
        if r.1 then (r.2.1, [update_steering r.2.1]) else (r.2.1, [])

/-- `Boat.set_raw_servo`: returns early when not connected; otherwise clamps
the PWM value into [1000, 2000] and sends a `MAV_CMD_DO_SET_SERVO` command,
without consulting the authority gate. -/
def set_raw_servo (s : BoatState) (servo_number pwm_value : Int) :
    BoatState × List LinkMsg :=
  if s.connected = false then (s, [])
  else
    let pwm := max 1000 (min pwm_value 2000)
    (s, [LinkMsg.command_long MAV_CMD_DO_SET_SERVO 0 servo_number pwm
          0 0 0 0 0])

/-- `Boat.set_relay_on`: unconditionally sends `MAV_CMD_DO_SET_RELAY` with
the relay number and setting 1. -/
def set_relay_on (s : BoatState) (relay_number : Int) :
    BoatState × List LinkMsg :=
  (s, [LinkMsg.command_long MAV_CMD_DO_SET_RELAY 0 relay_number 1 0 0 0 0 0])

/-- `Boat.set_relay_off`: unconditionally sends `MAV_CMD_DO_SET_RELAY` with
the relay number and setting 0. -/
def set_relay_off (s : BoatState) (relay_number : Int) :
    BoatState × List LinkMsg :=
  (s, [LinkMsg.command_long MAV_CMD_DO_SET_RELAY 0 relay_number 0 0 0 0 0 0])

/-- `Boat.disable_propulsion`: switches relay 1 off. -/
def disable_propulsion (s : BoatState) : BoatState × List LinkMsg :=
  set_relay_off s 1

/-- `Boat.enable_propulsion`: switches relay 1 on. -/
def enable_propulsion (s : BoatState) : BoatState × List LinkMsg :=
  set_relay_on s 1

/-- `Boat.emergency_stop`: calls `disable_propulsion`. -/
def emergency_stop (s : BoatState) : BoatState × List LinkMsg :=
  disable_propulsion s

/-- `Boat.arm_vehicle`: sends the arm command (`param1 = 1`), then
re-queries the armed status via `is_armed` on the post-command heartbeat
`heartbeat`; on confirmation sets the status to ARMED and returns `true`,
otherwise leaves the state and returns `false`.  Result: post-state, sent
messages, returned boolean. -/
def arm_vehicle (s : BoatState) (heartbeat : Option HeartbeatMsg) :
    BoatState × List LinkMsg × Bool :=
  let cmd := LinkMsg.command_long MAV_CMD_COMPONENT_ARM_DISARM 0 1 0 0 0 0 0 0
  if is_armed heartbeat then
    ({ s with status := Status.ARMED }, [cmd], true)
  else
    (s, [cmd], false)

/-- `Boat.disarm_vehicle`: sends the disarm command (`param1 = 0`), then
re-queries the armed status; when the post-command heartbeat shows not
armed it sets the status to DISARMED and returns `true`, otherwise leaves
the state and returns `false`. -/
def disarm_vehicle (s : BoatState) (heartbeat : Option HeartbeatMsg) :
    BoatState × List LinkMsg × Bool :=
  let cmd := LinkMsg.command_long MAV_CMD_COMPONENT_ARM_DISARM 0 0 0 0 0 0 0 0
  if is_armed heartbeat then
    (s, [cmd], false)
  else
    ({ s with status := Status.DISARMED }, [cmd], true)

/-- `Boat.check_rc_mode`: polls the RC mode switch (consuming `m1`), then
consults `__should_allow_rc_override` (which may poll again, consuming
`m2`) and, when allowed, keeps the override alive by sending one override
message. -/
def check_rc_mode (s : BoatState) (m1 m2 : Option RcChannelsMsg) :
    BoatState × List LinkMsg :=
  let s1 := poll_rc_mode_switch s m1
  let r := should_allow_rc_override s1 m2
  if r.1 then (r.2.1, [update_steering r.2.1]) else (r.2.1, [])

/-- `Boat.set_throttle_differential`: raises `NotImplementedError` before
touching any state or sending anything. -/
def set_throttle_differential (_s : BoatState) (_throttle_left _throttle_right : Int) :
    Except String (BoatState × List LinkMsg) :=
  Except.error "NotImplementedError"

end Boat

/-- One externally invokable operation on a `Boat`, together with the
telemetry messages the environment supplies to the blocking receives it
performs. -/
inductive Op where
  | waitForHeartbeat
  | checkRcMode (m1 m2 : Option RcChannelsMsg)
  | pollRcModeSwitch (m : Option RcChannelsMsg)
  | armVehicle (hb : Option HeartbeatMsg)
  | disarmVehicle (hb : Option HeartbeatMsg)
  | setRelayOn (n : Int)
  | setRelayOff (n : Int)
  | emergencyStop
  | disableProp
  | enableProp
  | setRudder (v : Option Int) (m : Option RcChannelsMsg)
  | setThrottle (v : Option Int) (m : Option RcChannelsMsg)
  | setThrottleDifferential (l r : Int)
  | setRawServo (n p : Int)
  | closeConnection
  deriving DecidableEq, Repr

namespace Boat

/-- Execute one operation: the post-state and the messages sent to the link.
`setThrottleDifferential` raises before any mutation or send, so it yields
the unchanged state and no messages. -/
def step (s : BoatState) : Op → BoatState × List LinkMsg
  | .waitForHeartbeat => (wait_for_heartbeat s, [])
  | .checkRcMode m1 m2 => check_rc_mode s m1 m2
  | .pollRcModeSwitch m => (poll_rc_mode_switch s m, [])
  | .armVehicle hb =>
      let r := arm_vehicle s hb
      (r.1, r.2.1)
  | .disarmVehicle hb =>
      let r := disarm_vehicle s hb
      (r.1, r.2.1)
  | .setRelayOn n => set_relay_on s n
  | .setRelayOff n => set_relay_off s n
  | .emergencyStop => emergency_stop s
  | .disableProp => disable_propulsion s
  | .enableProp => enable_propulsion s
  | .setRudder v m => set_rudder s v m
  | .setThrottle v m => set_throttle s v m
  | .setThrottleDifferential _ _ => (s, [])
  | .setRawServo n p => set_raw_servo s n p
  | .closeConnection => (close_connection s, [])

/-- Execute a sequence of operations, concatenating the sent messages. -/
def run (s : BoatState) : List Op → BoatState × List LinkMsg
  | [] => (s, [])
  | op :: ops =>
      let r := step s op
      let rest := run r.1 ops
      (rest.1, r.2 ++ rest.2)

/-- All PWM values transmitted to the link while running `ops` from `s`. -/
def pwmTrace (s : BoatState) (ops : List Op) : List Int :=
  ((run s ops).2.map LinkMsg.pwmValues).flatten

end Boat

/-- A concrete connected boat state used in witnesses and counterexamples:
freshly connected, authority REMOTE (the forced startup value), both
setpoints centred at 1500, channel-11 attribute not yet created. -/
def cexState : BoatState :=
  { connected := true
    heartbeat_received := true
    confirm_commands := false
    current_rudder_value := 1500
    current_throttle_value := 1500
    last_command_sent := none
    mode_switch := none
    status := Status.UNDEFINED
    control_authority := ControlAuthority.REMOTE
    rc_channel_11_value := none }

/-- Both stored setpoints lie in the acceptance band [1100, 1900]. -/
def SetpointInv (s : BoatState) : Prop :=
  1100 ≤ s.current_rudder_value ∧ s.current_rudder_value ≤ 1900 ∧
  1100 ≤ s.current_throttle_value ∧ s.current_throttle_value ≤ 1900

namespace Boat

/-- Helper: polling the RC mode switch touches no field of the state other
than the control authority and the `rc_channel_11_value` attribute. -/
theorem poll_rc_mode_switch_frame (s : BoatState) (m : Option RcChannelsMsg) :
    (poll_rc_mode_switch s m).connected = s.connected ∧
    (poll_rc_mode_switch s m).heartbeat_received = s.heartbeat_received ∧
    (poll_rc_mode_switch s m).confirm_commands = s.confirm_commands ∧
    (poll_rc_mode_switch s m).current_rudder_value = s.current_rudder_value ∧
    (poll_rc_mode_switch s m).current_throttle_value = s.current_throttle_value ∧
    (poll_rc_mode_switch s m).last_command_sent = s.last_command_sent ∧
    (poll_rc_mode_switch s m).mode_switch = s.mode_switch ∧
    (poll_rc_mode_switch s m).status = s.status := by
  cases m with
  | none => simp [poll_rc_mode_switch]
  | some msg =>
      simp only [poll_rc_mode_switch]
      cases msg.chan11_raw with
      | none => simp
      | some v =>
          simp only
          split
          · simp
          · split <;> simp

/-- Helper: the state returned by `should_allow_rc_override` is either the
input state or the result of one poll. -/
theorem should_allow_rc_override_state (s : BoatState)
    (m : Option RcChannelsMsg) :
    (should_allow_rc_override s m).2.1 = s ∨
    (should_allow_rc_override s m).2.1 = poll_rc_mode_switch s m := by
  unfold should_allow_rc_override
  split <;> simp

/-- Helper: polling preserves the setpoint invariant. -/
theorem poll_rc_mode_switch_setpointInv (s : BoatState)
    (m : Option RcChannelsMsg) (h : SetpointInv s) :
    SetpointInv (poll_rc_mode_switch s m) := by
  have hf := poll_rc_mode_switch_frame s m
  unfold SetpointInv at h ⊢
  rw [hf.2.2.2.1, hf.2.2.2.2.1]
  exact h

/-- Helper: the override gate preserves the setpoint invariant. -/
theorem should_allow_rc_override_setpointInv (s : BoatState)
    (m : Option RcChannelsMsg) (h : SetpointInv s) :
    SetpointInv (should_allow_rc_override s m).2.1 := by
  rcases should_allow_rc_override_state s m with he | he <;> rw [he]
  · exact h
  · exact poll_rc_mode_switch_setpointInv s m h

/-- Helper: storing an accepted rudder value keeps the invariant. -/
theorem setpointInv_store_rudder (s : BoatState) (x : Int) (h : SetpointInv s) :
    SetpointInv
      (if x ≥ 1100 ∧ x ≤ 1900 then { s with current_rudder_value := x }
       else s) := by
  unfold SetpointInv at h ⊢
  split
  · simp only
    omega
  · exact h

/-- Helper: storing an accepted throttle value keeps the invariant. -/
theorem setpointInv_store_throttle (s : BoatState) (x : Int) (h : SetpointInv s) :
    SetpointInv
      (if x ≥ 1100 ∧ x ≤ 1900 then { s with current_throttle_value := x }
       else s) := by
  unfold SetpointInv at h ⊢
  split
  · simp only
    omega
  · exact h

/-- Helper: the override gate leaves the setpoints and the connected flag
unchanged. -/
theorem should_allow_rc_override_frame (s : BoatState)
    (m : Option RcChannelsMsg) :
    (should_allow_rc_override s m).2.1.current_rudder_value =
      s.current_rudder_value ∧
    (should_allow_rc_override s m).2.1.current_throttle_value =
      s.current_throttle_value ∧
    (should_allow_rc_override s m).2.1.connected = s.connected := by
  rcases should_allow_rc_override_state s m with he | he <;> rw [he]
  · exact ⟨rfl, rfl, rfl⟩
  · have hf := poll_rc_mode_switch_frame s m
    exact ⟨hf.2.2.2.1, hf.2.2.2.2.1, hf.1⟩

/-- Helper: first projection of a conditional pair with equal first
components. -/
theorem fst_ite_pair (c : Prop) [Decidable c] (a : BoatState)
    (l1 l2 : List LinkMsg) :
    (if c then (a, l1) else (a, l2)).1 = a := by
  split <;> rfl

/-- Helper: second projection of a conditional pair. -/
theorem snd_ite_pair (c : Prop) [Decidable c] (a : BoatState)
    (l1 l2 : List LinkMsg) :
    (if c then (a, l1) else (a, l2)).2 = if c then l1 else l2 := by
  split <;> rfl

/-- Helper: every PWM value of an override send from a state satisfying the
setpoint invariant lies in [1000, 2000]. -/
theorem update_steering_pwm_range (s : BoatState) (h : SetpointInv s)
    (p : Int) (hp : p ∈ (update_steering s).pwmValues) :
    1000 ≤ p ∧ p ≤ 2000 := by
  simp only [update_steering, LinkMsg.pwmValues, List.mem_cons,
    List.not_mem_nil, or_false] at hp
  unfold SetpointInv at h
  rcases hp with hp | hp | hp <;> subst hp <;> omega

/-- Helper: one step preserves the setpoint invariant. -/
theorem step_setpointInv (s : BoatState) (op : Op) (h : SetpointInv s) :
    SetpointInv (step s op).1 := by
  cases op with
  | waitForHeartbeat => exact h
  | checkRcMode m1 m2 =>
      simp only [step, check_rc_mode]
      rw [fst_ite_pair]
      exact should_allow_rc_override_setpointInv _ _
        (poll_rc_mode_switch_setpointInv _ _ h)
  | pollRcModeSwitch m => exact poll_rc_mode_switch_setpointInv _ _ h
  | armVehicle hb =>
      simp only [step, arm_vehicle]
      split <;> exact h
  | disarmVehicle hb =>
      simp only [step, disarm_vehicle]
      split <;> exact h
  | setRelayOn n => exact h
  | setRelayOff n => exact h
  | emergencyStop => exact h
  | disableProp => exact h
  | enableProp => exact h
  | setRudder v m =>
      simp only [step, set_rudder]
      split
      · exact h
      · cases v with
        | none => exact h
        | some x =>
            rw [fst_ite_pair]
            exact should_allow_rc_override_setpointInv _ _
              (setpointInv_store_rudder s x h)
  | setThrottle v m =>
      simp only [step, set_throttle]
      split
      · exact h
      · cases v with
        | none => exact h
        | some x =>
            rw [fst_ite_pair]
            exact should_allow_rc_override_setpointInv _ _
              (setpointInv_store_throttle s x h)
  | setThrottleDifferential l r => exact h
  | setRawServo n q =>
      simp only [step, set_raw_servo]
      split <;> exact h
  | closeConnection => exact h

/-- Helper: every PWM value sent by one step from a state satisfying the
setpoint invariant lies in [1000, 2000]. -/
theorem step_pwm_range (s : BoatState) (op : Op) (h : SetpointInv s)
    (p : Int) (hp : p ∈ ((step s op).2.map LinkMsg.pwmValues).flatten) :
    1000 ≤ p ∧ p ≤ 2000 := by
  cases op with
  | waitForHeartbeat => simp [step] at hp
  | checkRcMode m1 m2 =>
      simp only [step, check_rc_mode] at hp
      rw [snd_ite_pair] at hp
      split at hp
      · simp only [List.map_cons, List.map_nil, List.flatten_cons,
          List.flatten_nil, List.append_nil] at hp
        exact update_steering_pwm_range _
          (should_allow_rc_override_setpointInv _ _
            (poll_rc_mode_switch_setpointInv _ _ h)) p hp
      · simp at hp
  | pollRcModeSwitch m => simp [step] at hp
  | armVehicle hb =>
      simp only [step, arm_vehicle] at hp
      split at hp <;>
        simp [LinkMsg.pwmValues, MAV_CMD_COMPONENT_ARM_DISARM,
          MAV_CMD_DO_SET_SERVO] at hp
  | disarmVehicle hb =>
      simp only [step, disarm_vehicle] at hp
      split at hp <;>
        simp [LinkMsg.pwmValues, MAV_CMD_COMPONENT_ARM_DISARM,
          MAV_CMD_DO_SET_SERVO] at hp
  | setRelayOn n =>
      simp [step, set_relay_on, LinkMsg.pwmValues, MAV_CMD_DO_SET_RELAY,
        MAV_CMD_DO_SET_SERVO] at hp
  | setRelayOff n =>
      simp [step, set_relay_off, LinkMsg.pwmValues, MAV_CMD_DO_SET_RELAY,
        MAV_CMD_DO_SET_SERVO] at hp
  | emergencyStop =>
      simp [step, emergency_stop, disable_propulsion, set_relay_off,
        LinkMsg.pwmValues, MAV_CMD_DO_SET_RELAY, MAV_CMD_DO_SET_SERVO] at hp
  | disableProp =>
      simp [step, disable_propulsion, set_relay_off, LinkMsg.pwmValues,
        MAV_CMD_DO_SET_RELAY, MAV_CMD_DO_SET_SERVO] at hp
  | enableProp =>
      simp [step, enable_propulsion, set_relay_on, LinkMsg.pwmValues,
        MAV_CMD_DO_SET_RELAY, MAV_CMD_DO_SET_SERVO] at hp
  | setRudder v m =>
      simp only [step, set_rudder] at hp
      split at hp
      · simp at hp
      · cases v with
        | none => simp at hp
        | some x =>
            rw [snd_ite_pair] at hp
            have hs1 := setpointInv_store_rudder s x h
            set s1 :=
              if x ≥ 1100 ∧ x ≤ 1900 then { s with current_rudder_value := x }
              else s
            split at hp
            · simp only [List.map_cons, List.map_nil, List.flatten_cons,
                List.flatten_nil, List.append_nil] at hp
              exact update_steering_pwm_range _
                (should_allow_rc_override_setpointInv _ _ hs1) p hp
            · simp at hp
  | setThrottle v m =>
      simp only [step, set_throttle] at hp
      split at hp
      · simp at hp
      · cases v with
        | none => simp at hp
        | some x =>
            rw [snd_ite_pair] at hp
            have hs1 := setpointInv_store_throttle s x h
            set s1 :=
              if x ≥ 1100 ∧ x ≤ 1900 then { s with current_throttle_value := x }
              else s
            split at hp
            · simp only [List.map_cons, List.map_nil, List.flatten_cons,
                List.flatten_nil, List.append_nil] at hp
              exact update_steering_pwm_range _
                (should_allow_rc_override_setpointInv _ _ hs1) p hp
            · simp at hp
  | setThrottleDifferential l r => simp [step] at hp
  | setRawServo n q =>
      simp only [step, set_raw_servo] at hp
      split at hp
      · simp at hp
      · simp [LinkMsg.pwmValues] at hp
        subst hp
        exact ⟨le_max_left _ _, max_le (by norm_num) (min_le_right _ _)⟩
  | closeConnection => simp [step] at hp

/-- Helper: running a sequence preserves the setpoint invariant. -/
theorem run_setpointInv (s : BoatState) (ops : List Op) (h : SetpointInv s) :
    SetpointInv (run s ops).1 := by
  induction ops generalizing s with
  | nil => exact h
  | cons op ops ih => exact ih _ (step_setpointInv s op h)

/-- Helper: every PWM value in the trace of a run from a state satisfying
the setpoint invariant lies in [1000, 2000]. -/
theorem run_pwm_range (s : BoatState) (ops : List Op) (h : SetpointInv s)
    (p : Int) (hp : p ∈ ((run s ops).2.map LinkMsg.pwmValues).flatten) :
    1000 ≤ p ∧ p ≤ 2000 := by
  induction ops generalizing s with
  | nil => simp [run] at hp
  | cons op ops ih =>
      simp only [run, List.map_append, List.flatten_append,
        List.mem_append] at hp
      rcases hp with hp | hp
      · exact step_pwm_range s op h p hp
      · exact ih _ (step_setpointInv s op h) hp

/-- Helper: on a connected boat, `set_rudder` with a coercible value ends in
the state produced by the override gate applied to the (conditionally)
updated setpoints. -/
theorem set_rudder_state_eq (s : BoatState) (x : Int)
    (m : Option RcChannelsMsg) (hs : s.connected = true) :
    (set_rudder s (some x) m).1 =
      (should_allow_rc_override
        (if x ≥ 1100 ∧ x ≤ 1900 then { s with current_rudder_value := x }
         else s) m).2.1 := by
  simp only [set_rudder, hs]
  norm_num
  rw [fst_ite_pair]

/-- Helper: on a connected boat, `set_rudder` with a coercible value sends
one override message built from the post-gate state when the gate allows,
and nothing otherwise. -/
theorem set_rudder_msgs_eq (s : BoatState) (x : Int)
    (m : Option RcChannelsMsg) (hs : s.connected = true) :
    (set_rudder s (some x) m).2 =
      (if (should_allow_rc_override
            (if x ≥ 1100 ∧ x ≤ 1900 then { s with current_rudder_value := x }
             else s) m).1 = true
       then [update_steering
              (should_allow_rc_override
                (if x ≥ 1100 ∧ x ≤ 1900 then
                   { s with current_rudder_value := x }
                 else s) m).2.1]
       else []) := by
  simp only [set_rudder, hs]
  norm_num
  rw [snd_ite_pair]

/-- Helper: on a connected boat, `set_throttle` with a coercible value ends
in the state produced by the override gate applied to the (conditionally)
updated setpoints. -/
theorem set_throttle_state_eq (s : BoatState) (x : Int)
    (m : Option RcChannelsMsg) (hs : s.connected = true) :
    (set_throttle s (some x) m).1 =
      (should_allow_rc_override
        (if x ≥ 1100 ∧ x ≤ 1900 then { s with current_throttle_value := x }
         else s) m).2.1 := by
  simp only [set_throttle, hs]
  norm_num
  rw [fst_ite_pair]

/-- Helper: on a connected boat, `set_throttle` with a coercible value sends
one override message built from the post-gate state when the gate allows,
and nothing otherwise. -/
theorem set_throttle_msgs_eq (s : BoatState) (x : Int)
    (m : Option RcChannelsMsg) (hs : s.connected = true) :
    (set_throttle s (some x) m).2 =
      (if (should_allow_rc_override
            (if x ≥ 1100 ∧ x ≤ 1900 then { s with current_throttle_value := x }
             else s) m).1 = true
       then [update_steering
              (should_allow_rc_override
                (if x ≥ 1100 ∧ x ≤ 1900 then
                   { s with current_throttle_value := x }
                 else s) m).2.1]
       else []) := by
  simp only [set_throttle, hs]
  norm_num
  rw [snd_ite_pair]

/-- Helper: the setters are the identity when the boat is not connected. -/
theorem setters_not_connected (s : BoatState) (v : Option Int)
    (m : Option RcChannelsMsg) (hs : s.connected = false) :
    set_rudder s v m = (s, []) ∧ set_throttle s v m = (s, []) := by
  constructor <;> simp [set_rudder, set_throttle, hs]

/-- Helper: the setters are the identity on a non-coercible value. -/
theorem setters_none (s : BoatState) (m : Option RcChannelsMsg) :
    set_rudder s none m = (s, []) ∧ set_throttle s none m = (s, []) := by
  constructor <;>
    simp only [set_rudder, set_throttle] <;> split <;> rfl

end Boat

/-- Claim C1: for every sequence of operations on a connected boat (the
state produced by construction followed by `wait_for_heartbeat`), every PWM
value transmitted to the link lies in [1000, 2000]: the stored rudder and
throttle setpoints start at 1500, every accepted setter mutation keeps them
within [1100, 1900], the override send only emits the stored setpoints, and
`set_raw_servo` clamps its PWM value before sending. -/
theorem C1_pwm_range_invariant (hbArm hbMode : Option HeartbeatMsg)
    (ops : List Op) (p : Int)
    (hp : p ∈ Boat.pwmTrace (Boat.wait_for_heartbeat (Boat.init hbArm hbMode))
            ops) :
    1000 ≤ p ∧ p ≤ 2000 := by
  have h1 : (Boat.wait_for_heartbeat
      (Boat.init hbArm hbMode)).current_rudder_value = 1500 := rfl
  have h2 : (Boat.wait_for_heartbeat
      (Boat.init hbArm hbMode)).current_throttle_value = 1500 := rfl
  refine Boat.run_pwm_range _ ops ?_ p hp
  unfold SetpointInv
  rw [h1, h2]
  norm_num

/-- Witness for C1: a concrete run in which `set_raw_servo` receives the
out-of-range input 9999 and transmits exactly the clamped value 2000. -/
theorem C1_pwm_range_invariant_witness :
    (2000 : Int) ∈ Boat.pwmTrace (Boat.wait_for_heartbeat (Boat.init none none))
        [Op.setRawServo 1 9999] ∧
    (1000 ≤ (2000 : Int) ∧ (2000 : Int) ≤ 2000) :=
  ⟨by decide,
   C1_pwm_range_invariant none none [Op.setRawServo 1 9999] 2000 (by decide)⟩

/-- Claim C3: for every call to the RC mode-switch poll, a missing message
or an absent channel-11 field leaves the authority unchanged and raises no
error (the function is total); a present channel-11 value above 1500 sets
the authority to REMOTE, below 1500 sets it to MANUAL, and exactly 1500
leaves it unchanged. -/
theorem C3_poll_rc_mode_switch_semantics (s : BoatState)
    (m : Option RcChannelsMsg) :
    (m = none → Boat.poll_rc_mode_switch s m = s) ∧
    (∀ msg, m = some msg → msg.chan11_raw = none →
      (Boat.poll_rc_mode_switch s m).control_authority =
        s.control_authority) ∧
    (∀ msg v, m = some msg → msg.chan11_raw = some v →
      ((1500 < v →
         (Boat.poll_rc_mode_switch s m).control_authority =
           ControlAuthority.REMOTE) ∧
       (v < 1500 →
         (Boat.poll_rc_mode_switch s m).control_authority =
           ControlAuthority.MANUAL) ∧
       (v = 1500 →
         (Boat.poll_rc_mode_switch s m).control_authority =
           s.control_authority))) := by
  refine ⟨?_, ?_, ?_⟩
  · intro hm
    subst hm
    rfl
  · intro msg hm hc
    subst hm
    simp [Boat.poll_rc_mode_switch, hc]
  · intro msg v hm hc
    subst hm
    simp only [Boat.poll_rc_mode_switch, hc]
    refine ⟨?_, ?_, ?_⟩ <;> intro hv
    · have hnlt : ¬ (v < 1500) := by omega
      by_cases hr : s.control_authority = ControlAuthority.REMOTE <;>
        simp [hr, hv, hnlt]
    · have hngt : ¬ (v > 1500) := by omega
      by_cases hr : s.control_authority = ControlAuthority.MANUAL <;>
        simp [hr, hv, hngt]
    · subst hv
      simp

/-- Witness for C3: from the concrete state, a poll that reads channel-11
value 1600 sets the authority to REMOTE. -/
theorem C3_poll_rc_mode_switch_semantics_witness :
    (Boat.poll_rc_mode_switch cexState
      (some { chan11_raw := some 1600 })).control_authority =
      ControlAuthority.REMOTE :=
  ((C3_poll_rc_mode_switch_semantics cexState
      (some { chan11_raw := some 1600 })).2.2
    { chan11_raw := some 1600 } 1600 rfl rfl).1 (by norm_num)

/-- Claim C4: the override gate returns false exactly when the authority at
decision time is MANUAL (hence true for REMOTE and AUTOMATIC); when the
authority is UNDEFINED at entry it performs exactly one poll before the
decision, and otherwise performs no poll and leaves the state untouched. -/
theorem C4_should_allow_override_semantics (s : BoatState)
    (m : Option RcChannelsMsg) :
    ((Boat.should_allow_rc_override s m).1 = false ↔
      (Boat.should_allow_rc_override s m).2.1.control_authority =
        ControlAuthority.MANUAL) ∧
    ((Boat.should_allow_rc_override s m).2.2 =
      if s.control_authority = ControlAuthority.UNDEFINED then 1 else 0) ∧
    (s.control_authority ≠ ControlAuthority.UNDEFINED →
      (Boat.should_allow_rc_override s m).2.1 = s) := by
  unfold Boat.should_allow_rc_override
  split
  next hu =>
    refine ⟨?_, ?_, ?_⟩
    · cases hca : (Boat.poll_rc_mode_switch s m).control_authority <;>
        simp [ControlAuthority.value, hca]
    · simp [hu]
    · intro hne
      exact absurd hu hne
  next hu =>
    refine ⟨?_, ?_, ?_⟩
    · cases hca : s.control_authority <;>
        simp [ControlAuthority.value, hca]
    · simp [hu]
    · intro _
      rfl

/-- Witness for C4: from the concrete REMOTE-authority state the gate
performs no poll and leaves the state untouched. -/
theorem C4_should_allow_override_semantics_witness :
    cexState.control_authority ≠ ControlAuthority.UNDEFINED ∧
    (Boat.should_allow_rc_override cexState none).2.1 = cexState :=
  ⟨by decide,
   (C4_should_allow_override_semantics cexState none).2.2 (by decide)⟩

/-- Claim C5: on a connected boat, a setter call whose value coerces to an
integer in [1100, 1900] stores that value in the corresponding setpoint;
for every other value (coercible but out of range, or not coercible) both
stored setpoints are unchanged, and an in-range call never touches the
other setpoint. -/
theorem C5_setpoint_update (s : BoatState) (x : Int) (m : Option RcChannelsMsg)
    (hs : s.connected = true) :
    (1100 ≤ x ∧ x ≤ 1900 →
      (Boat.set_rudder s (some x) m).1.current_rudder_value = x ∧
      (Boat.set_throttle s (some x) m).1.current_throttle_value = x) ∧
    ((x < 1100 ∨ 1900 < x) →
      (Boat.set_rudder s (some x) m).1.current_rudder_value =
        s.current_rudder_value ∧
      (Boat.set_throttle s (some x) m).1.current_throttle_value =
        s.current_throttle_value) ∧
    (Boat.set_rudder s (some x) m).1.current_throttle_value =
      s.current_throttle_value ∧
    (Boat.set_throttle s (some x) m).1.current_rudder_value =
      s.current_rudder_value ∧
    Boat.set_rudder s none m = (s, []) ∧
    Boat.set_throttle s none m = (s, []) := by
  refine ⟨?_, ?_, ?_, ?_, (Boat.setters_none s m).1, (Boat.setters_none s m).2⟩
  · intro hx
    constructor
    · rw [Boat.set_rudder_state_eq s x m hs,
        (Boat.should_allow_rc_override_frame _ m).1,
        if_pos (by omega : x ≥ 1100 ∧ x ≤ 1900)]
    · rw [Boat.set_throttle_state_eq s x m hs,
        (Boat.should_allow_rc_override_frame _ m).2.1,
        if_pos (by omega : x ≥ 1100 ∧ x ≤ 1900)]
  · intro hx
    constructor
    · rw [Boat.set_rudder_state_eq s x m hs,
        (Boat.should_allow_rc_override_frame _ m).1,
        if_neg (by omega : ¬ (x ≥ 1100 ∧ x ≤ 1900))]
    · rw [Boat.set_throttle_state_eq s x m hs,
        (Boat.should_allow_rc_override_frame _ m).2.1,
        if_neg (by omega : ¬ (x ≥ 1100 ∧ x ≤ 1900))]
  · rw [Boat.set_rudder_state_eq s x m hs,
      (Boat.should_allow_rc_override_frame _ m).2.1]
    split <;> rfl
  · rw [Boat.set_throttle_state_eq s x m hs,
      (Boat.should_allow_rc_override_frame _ m).1]
    split <;> rfl

/-- Witness for C5: from the concrete connected state, `set_rudder 1600`
stores 1600. -/
theorem C5_setpoint_update_witness :
    cexState.connected = true ∧
    (1100 ≤ (1600 : Int) ∧ (1600 : Int) ≤ 1900) ∧
    (Boat.set_rudder cexState (some 1600) none).1.current_rudder_value = 1600 :=
  ⟨rfl, by norm_num,
   ((C5_setpoint_update cexState 1600 none rfl).1 (by norm_num)).1⟩

/-- Claim C6: `enable_propulsion`, `disable_propulsion` and
`emergency_stop` send their relay command unconditionally, for every state
and in particular for every value of the control authority, never
consulting the override gate; and `emergency_stop` performs exactly the
action of `disable_propulsion`. -/
theorem C6_propulsion_unconditional (s : BoatState) (a : ControlAuthority) :
    Boat.enable_propulsion s =
      (s, [LinkMsg.command_long MAV_CMD_DO_SET_RELAY 0 1 1 0 0 0 0 0]) ∧
    Boat.disable_propulsion s =
      (s, [LinkMsg.command_long MAV_CMD_DO_SET_RELAY 0 1 0 0 0 0 0 0]) ∧
    Boat.emergency_stop s = Boat.disable_propulsion s ∧
    (Boat.enable_propulsion { s with control_authority := a }).2 =
      (Boat.enable_propulsion s).2 ∧
    (Boat.disable_propulsion { s with control_authority := a }).2 =
      (Boat.disable_propulsion s).2 ∧
    (Boat.emergency_stop { s with control_authority := a }).2 =
      (Boat.emergency_stop s).2 :=
  ⟨rfl, rfl, rfl, rfl, rfl, rfl⟩

/-- Claim C7: on a connected boat, `set_raw_servo` transmits exactly the
silently clamped value `clamp(p, 1000, 2000)` without consulting the
control-authority gate (the sent message is the same for every authority
value), and when not connected it returns without sending. -/
theorem C7_raw_servo_clamp (s : BoatState) (a : ControlAuthority) (n p : Int) :
    (s.connected = true →
      Boat.set_raw_servo s n p =
        (s, [LinkMsg.command_long MAV_CMD_DO_SET_SERVO 0 n
              (max 1000 (min p 2000)) 0 0 0 0 0])) ∧
    (s.connected = false → Boat.set_raw_servo s n p = (s, [])) ∧
    (Boat.set_raw_servo { s with control_authority := a } n p).2 =
      (Boat.set_raw_servo s n p).2 := by
  refine ⟨?_, ?_, ?_⟩
  · intro hs
    simp [Boat.set_raw_servo, hs]
  · intro hs
    simp [Boat.set_raw_servo, hs]
  · simp only [Boat.set_raw_servo]
    split <;> rfl

/-- Witness for C7: from the concrete connected state, raw-servo input 900
is transmitted as the clamped value 1000. -/
theorem C7_raw_servo_clamp_witness :
    cexState.connected = true ∧
    Boat.set_raw_servo cexState 1 900 =
      (cexState,
       [LinkMsg.command_long MAV_CMD_DO_SET_SERVO 0 1 1000 0 0 0 0 0]) :=
  ⟨rfl, by
    have h := (C7_raw_servo_clamp cexState ControlAuthority.REMOTE 1 900).1 rfl
    simpa using h⟩

/-- Claim C8: `arm_vehicle` sends the arm command and then re-queries the
armed state via a heartbeat read; it returns true exactly when the
post-command heartbeat confirms armed, and it sets the status to ARMED only
on that success (otherwise the status is untouched); `disarm_vehicle` is
symmetric (returns true and sets DISARMED exactly when the post-command
heartbeat shows not armed); `is_armed` returns false when no heartbeat
arrives within the 1 s timeout. -/
theorem C8_arm_disarm_semantics (s : BoatState) (hb : Option HeartbeatMsg) :
    Boat.is_armed none = false ∧
    (Boat.arm_vehicle s hb).2.1 =
      [LinkMsg.command_long MAV_CMD_COMPONENT_ARM_DISARM 0 1 0 0 0 0 0 0] ∧
    (Boat.arm_vehicle s hb).2.2 = Boat.is_armed hb ∧
    (Boat.arm_vehicle s hb).1.status =
      (if Boat.is_armed hb then Status.ARMED else s.status) ∧
    (Boat.disarm_vehicle s hb).2.1 =
      [LinkMsg.command_long MAV_CMD_COMPONENT_ARM_DISARM 0 0 0 0 0 0 0 0] ∧
    (Boat.disarm_vehicle s hb).2.2 = !(Boat.is_armed hb) ∧
    (Boat.disarm_vehicle s hb).1.status =
      (if Boat.is_armed hb then s.status else Status.DISARMED) := by
  refine ⟨rfl, ?_, ?_, ?_, ?_, ?_, ?_⟩ <;>
    · simp only [Boat.arm_vehicle, Boat.disarm_vehicle]
      cases hia : Boat.is_armed hb <;> simp [hia]

/-- Claim C10: when the authority is UNDEFINED at entry and the single poll
performed by the override gate leaves it UNDEFINED (no message, absent
channel-11 field, or value exactly 1500), the gate returns true: override
is permitted while the authority is unresolved, because the UNDEFINED
ordinal value is -1, which is nonzero. -/
theorem C10_undefined_allows_override (s : BoatState)
    (m : Option RcChannelsMsg)
    (h1 : s.control_authority = ControlAuthority.UNDEFINED)
    (h2 : (Boat.poll_rc_mode_switch s m).control_authority =
      ControlAuthority.UNDEFINED) :
    (Boat.should_allow_rc_override s m).1 = true ∧
    ControlAuthority.value ControlAuthority.UNDEFINED = -1 := by
  refine ⟨?_, rfl⟩
  simp [Boat.should_allow_rc_override, h1, h2, ControlAuthority.value]

/-- Witness for C10: an UNDEFINED-authority state polled with no incoming
message stays UNDEFINED and the gate returns true. -/
theorem C10_undefined_allows_override_witness :
    ({ cexState with control_authority := ControlAuthority.UNDEFINED } :
        BoatState).control_authority = ControlAuthority.UNDEFINED ∧
    (Boat.should_allow_rc_override
      { cexState with control_authority := ControlAuthority.UNDEFINED }
      none).1 = true :=
  ⟨rfl,
   (C10_undefined_allows_override
      { cexState with control_authority := ControlAuthority.UNDEFINED }
      none rfl rfl).1⟩

/-- Counterexample to C2 as stated: on the concrete connected REMOTE-authority
state, `set_rudder 2500` (coercible but outside [1100, 1900]) does not skip
the operation — it still transmits an RC override message (carrying the
previously stored setpoints), contradicting the claim that no override
message is transmitted to the link as a result of such a call. -/
theorem C2_counterexample :
    (Boat.set_rudder cexState (some 2500) none).2 =
      [LinkMsg.rc_channels_override 1500 1500 1500 0 0 0 0 0] ∧
    (Boat.set_rudder cexState (some 2500) none).2 ≠ [] := by
  constructor <;> decide

/-- Claim C2 (amended): a setter call on a disconnected boat or with a
non-coercible value fails softly, returning without mutating the state and
without transmitting.  A coercible value outside [1100, 1900] leaves both
stored setpoints unchanged but is not skipped entirely: the call still
consults the override gate and, when override is allowed, transmits one
override message carrying the previously stored setpoints. -/
theorem C2_soft_failure_amended (s : BoatState) (v : Option Int) (x : Int)
    (m : Option RcChannelsMsg) :
    (s.connected = false →
      Boat.set_rudder s v m = (s, []) ∧ Boat.set_throttle s v m = (s, [])) ∧
    (Boat.set_rudder s none m = (s, []) ∧
      Boat.set_throttle s none m = (s, [])) ∧
    (s.connected = true → (x < 1100 ∨ 1900 < x) →
      (Boat.set_rudder s (some x) m).1.current_rudder_value =
        s.current_rudder_value ∧
      (Boat.set_rudder s (some x) m).1.current_throttle_value =
        s.current_throttle_value ∧
      (Boat.set_throttle s (some x) m).1.current_rudder_value =
        s.current_rudder_value ∧
      (Boat.set_throttle s (some x) m).1.current_throttle_value =
        s.current_throttle_value ∧
      (Boat.set_rudder s (some x) m).2 =
        (if (Boat.should_allow_rc_override s m).1 = true
         then [LinkMsg.rc_channels_override s.current_rudder_value
                s.current_throttle_value s.current_throttle_value 0 0 0 0 0]
         else []) ∧
      (Boat.set_throttle s (some x) m).2 =
        (if (Boat.should_allow_rc_override s m).1 = true
         then [LinkMsg.rc_channels_override s.current_rudder_value
                s.current_throttle_value s.current_throttle_value 0 0 0 0 0]
         else [])) := by
  refine ⟨fun hs => Boat.setters_not_connected s v m hs,
    Boat.setters_none s m, ?_⟩
  intro hs hx
  have hneg : ¬ (x ≥ 1100 ∧ x ≤ 1900) := by omega
  have hr := Boat.set_rudder_state_eq s x m hs
  rw [if_neg hneg] at hr
  have hrm := Boat.set_rudder_msgs_eq s x m hs
  rw [if_neg hneg] at hrm
  have ht := Boat.set_throttle_state_eq s x m hs
  rw [if_neg hneg] at ht
  have htm := Boat.set_throttle_msgs_eq s x m hs
  rw [if_neg hneg] at htm
  have hf := Boat.should_allow_rc_override_frame s m
  refine ⟨?_, ?_, ?_, ?_, ?_, ?_⟩
  · rw [hr, hf.1]
  · rw [hr, hf.2.1]
  · rw [ht, hf.1]
  · rw [ht, hf.2.1]
  · rw [hrm]
    simp only [Boat.update_steering, hf.1, hf.2.1]
  · rw [htm]
    simp only [Boat.update_steering, hf.1, hf.2.1]

/-- Witness for the amended C2: on the concrete connected state, the
out-of-range call `set_rudder 2500` leaves the stored rudder setpoint at
its previous value. -/
theorem C2_soft_failure_amended_witness :
    cexState.connected = true ∧
    ((2500 : Int) < 1100 ∨ (1900 : Int) < 2500) ∧
    (Boat.set_rudder cexState (some 2500) none).1.current_rudder_value =
      cexState.current_rudder_value :=
  ⟨rfl, by norm_num,
   ((C2_soft_failure_amended cexState (some 2500) 2500 none).2.2 rfl
      (by norm_num)).1⟩

/-- Counterexample to C9 as stated: a poll that receives a message stores
the channel-11 sample in the instance attribute `rc_channel_11_value`,
which persists beyond the authority decision: on the concrete state a poll
reading the neutral value 1500 changes that field (from absent to
`some 1500`) while leaving the authority unchanged, so a field of the
controller other than the authority changes as a result of the poll. -/
theorem C9_counterexample :
    (Boat.poll_rc_mode_switch cexState
        (some { chan11_raw := some 1500 })).rc_channel_11_value =
      some (some 1500) ∧
    cexState.rc_channel_11_value = none ∧
    (Boat.poll_rc_mode_switch cexState
        (some { chan11_raw := some 1500 })).control_authority =
      cexState.control_authority := by
  refine ⟨?_, rfl, ?_⟩ <;> decide

/-- Claim C9 (amended): the channel-11 sample read by a poll is not fully
transient: whenever a message arrives, the sample is stored in the
instance attribute `rc_channel_11_value` (created on first use) and
persists after the poll.  Apart from that attribute and the control
authority, no field of the controller changes as a result of a poll, and a
poll that times out changes nothing at all. -/
theorem C9_sample_stored_frame (s : BoatState) (m : Option RcChannelsMsg) :
    (Boat.poll_rc_mode_switch s m).connected = s.connected ∧
    (Boat.poll_rc_mode_switch s m).heartbeat_received =
      s.heartbeat_received ∧
    (Boat.poll_rc_mode_switch s m).confirm_commands = s.confirm_commands ∧
    (Boat.poll_rc_mode_switch s m).current_rudder_value =
      s.current_rudder_value ∧
    (Boat.poll_rc_mode_switch s m).current_throttle_value =
      s.current_throttle_value ∧
    (Boat.poll_rc_mode_switch s m).last_command_sent = s.last_command_sent ∧
    (Boat.poll_rc_mode_switch s m).mode_switch = s.mode_switch ∧
    (Boat.poll_rc_mode_switch s m).status = s.status ∧
    (∀ msg, m = some msg →
      (Boat.poll_rc_mode_switch s m).rc_channel_11_value =
        some msg.chan11_raw) ∧
    (m = none → Boat.poll_rc_mode_switch s m = s) := by
  have hf := Boat.poll_rc_mode_switch_frame s m
  refine ⟨hf.1, hf.2.1, hf.2.2.1, hf.2.2.2.1, hf.2.2.2.2.1,
    hf.2.2.2.2.2.1, hf.2.2.2.2.2.2.1, hf.2.2.2.2.2.2.2, ?_, ?_⟩
  · intro msg hm
    subst hm
    simp only [Boat.poll_rc_mode_switch]
    cases hc : msg.chan11_raw with
    | none => simp
    | some v =>
        simp only
        split
        · rfl
        · split <;> rfl
  · intro hm
    subst hm
    rfl

/-- Witness for the amended C9: on the concrete state, a poll reading value
1700 stores `some 1700` in the channel-11 attribute. -/
theorem C9_sample_stored_frame_witness :
    (Boat.poll_rc_mode_switch cexState
        (some { chan11_raw := some 1700 })).rc_channel_11_value =
      some (some 1700) :=
  (C9_sample_stored_frame cexState
      (some { chan11_raw := some 1700 })).2.2.2.2.2.2.2.2.1
    { chan11_raw := some 1700 } rfl
